import Mathlib

/-!
Verification of the request-observability middleware of the `libretune`
backend (`src/request_logger.rs`): the status classifier, the configuration
resolver, the record builder, the console and file sinks, and the
interception middleware `RequestLoggerMiddleware::call`.

The Rust code is shallowly embedded: the async middleware body is modelled
as a pure function from the request, the downstream handler's result and
the environment oracles (wall clock, elapsed time, file-system outcome) to
the returned result together with the list of emitted sink events.
-/

namespace Libretune

/-- The five status categories of `StatusCategory` (request_logger.rs:31-38). -/
inductive StatusCategory where
  | Success
  | Redirect
  | ClientError
  | ServerError
  | Other
deriving DecidableEq, Repr

/-- `StatusCategory::from_status_code` (request_logger.rs:41-49).
The Rust function takes a `u16`; its match arms are the numeric ranges
`200..=299`, `300..=399`, `400..=499`, `500..=599` with a catch-all `_`.
The domain is widened to all integers (every `u16` value embeds into `Int`),
keeping the arms verbatim, so that totality over arbitrary integer input
can be stated. -/
def StatusCategory.from_status_code (code : Int) : StatusCategory :=
  if 200 ≤ code ∧ code ≤ 299 then StatusCategory.Success
  else if 300 ≤ code ∧ code ≤ 399 then StatusCategory.Redirect
  else if 400 ≤ code ∧ code ≤ 499 then StatusCategory.ClientError
  else if 500 ≤ code ∧ code ≤ 599 then StatusCategory.ServerError
  else StatusCategory.Other

/-- `StatusCategory::emoji` (request_logger.rs:51-59). -/
def StatusCategory.emoji : StatusCategory → String
  | StatusCategory.Success => "✅"
  | StatusCategory.Redirect => "↩️"
  | StatusCategory.ClientError => "❌"
  | StatusCategory.ServerError => "💥"
  | StatusCategory.Other => "❓"

/-- `RequestLoggerConfig` (request_logger.rs:62-67). -/
structure RequestLoggerConfig where
  log_to_console : Bool
  log_to_file : Bool
  log_file_path : String
deriving DecidableEq, Repr

/-- `Default for RequestLoggerConfig` (request_logger.rs:69-77). -/
def RequestLoggerConfig.default : RequestLoggerConfig :=
  { log_to_console := true
    log_to_file := false
    log_file_path := "requests.log" }

/-- Rust's `str::parse::<bool>` (`bool::from_str`): accepts exactly
`"true"` and `"false"`, fails on anything else. -/
def parse_bool : String → Option Bool
  | "true" => some true
  | "false" => some false
  | _ => none

/-- `usize::MAX` on the 64-bit targets the repository builds for. -/
def USIZE_MAX : Nat := 2 ^ 64 - 1

/-- Rust's `str::parse::<usize>` (`usize::from_str`): an optional leading
`+` sign followed by at least one ASCII digit, rejecting overflow past
`usize::MAX`; anything else fails. -/
def parse_usize (s : String) : Option Nat :=
  let cs := if s.data.head? = some '+' then s.data.tail else s.data
  if cs ≠ [] ∧ cs.all Char.isDigit then
    let v := cs.foldl (fun a c => a * 10 + (c.toNat - 48)) 0
    if v ≤ USIZE_MAX then some v else none
  else none

/-- An environment snapshot: `std::env::var` modelled as a lookup from
variable name to its value, `none` when the variable is absent (or not
unicode, in which case `env::var` errs just the same). -/
def EnvMap : Type := String → Option String

/-- `RequestLoggerConfig::from_env` (request_logger.rs:80-94): each field is
`env::var(name).unwrap_or(default-literal).parse().unwrap_or(default)`,
the path field skipping the parse step. -/
def RequestLoggerConfig.from_env (env : EnvMap) : RequestLoggerConfig :=
  { log_to_console :=
      (parse_bool ((env "LOG_REQUESTS_CONSOLE").getD "true")).getD true
    log_to_file :=
      (parse_bool ((env "LOG_REQUESTS_FILE").getD "false")).getD false
    log_file_path :=
      (env "LOG_REQUESTS_FILE_PATH").getD "requests.log" }

/-- An HTTP header value. `actix_web::http::header::HeaderValue::to_str`
succeeds only when the bytes are visible ASCII; we model a value as either
one that decodes to a string or one that does not. -/
inductive HeaderValue where
  | valid (s : String)
  | invalid
deriving DecidableEq, Repr

/-- `HeaderValue::to_str().ok()`. -/
def HeaderValue.to_str : HeaderValue → Option String
  | HeaderValue.valid s => some s
  | HeaderValue.invalid => none

/-- A header map; `HeaderMap::get` returns the first value for a name. -/
abbrev Headers : Type := List (String × HeaderValue)

/-- `HeaderMap::get(name)`. -/
def Headers.get (hs : Headers) (name : String) : Option HeaderValue :=
  hs.lookup name

/-- The request-side data `RequestLoggerMiddleware::call` reads from the
`ServiceRequest` (request_logger.rs:207-228): peer address (absent when
unresolvable), method, URI and headers. -/
structure ServiceRequest where
  peer_addr : Option String
  method : String
  uri : String
  headers : Headers

/-- A `ServiceResponse` with body type `B`: the middleware reads its status
code (`u16`, embedded as `Nat`) and headers and forwards the whole value. -/
structure ServiceResponse (B : Type) where
  status : Nat
  headers : Headers
  body : B
deriving DecidableEq, Repr

/-- `RequestLog` (request_logger.rs:17-29). -/
structure RequestLog where
  timestamp : Nat
  client_ip : String
  method : String
  uri : String
  user_agent : Option String
  status_code : Nat
  response_time_ms : Nat
  request_size : Nat
  response_size : Nat
  status_category : StatusCategory
deriving DecidableEq, Repr

/-- The levels of the `tracing` macros the sinks emit through. -/
inductive LogLevel where
  | info
  | warn
  | error
deriving DecidableEq, Repr

/-- An observable effect of sink dispatch: a levelled console line, an
appended-and-flushed file line, or a diagnostics line reporting a sink
failure (`error!("Failed to write to log file: ...")`). -/
inductive SinkEvent where
  | console (level : LogLevel) (msg : String)
  | fileWrite (path : String) (entry : String)
  | diagError (msg : String)
deriving DecidableEq, Repr

/-- Outcome oracle for the file sink's three I/O steps
(`OpenOptions::open`, `write_all`, `flush`). -/
structure FsOutcome where
  open_ok : Bool
  write_ok : Bool
  flush_ok : Bool
deriving DecidableEq, Repr

/-- The `std::io::Error` cases the file sink can hit. -/
inductive FsError where
  | openFailed
  | writeFailed
  | flushFailed
deriving DecidableEq, Repr

/-- Display text of the I/O error, as interpolated by `error!`. -/
def FsError.msg : FsError → String
  | FsError.openFailed => "open failed"
  | FsError.writeFailed => "write failed"
  | FsError.flushFailed => "flush failed"

namespace RequestLogger

/-- The console line built by `RequestLogger::log_to_console`
(request_logger.rs:122-133): format string
`"{} {} {} {} - {} {}ms [{}->{}] {}"`. -/
def console_message (log : RequestLog) : String :=
  log.status_category.emoji ++ " " ++ log.method ++ " " ++ log.uri ++ " "
    ++ log.client_ip ++ " - " ++ toString log.status_code ++ " "
    ++ toString log.response_time_ms ++ "ms [" ++ toString log.request_size
    ++ "->" ++ toString log.response_size ++ "] "
    ++ (log.user_agent.getD "Unknown")

/-- `RequestLogger::log_to_console` (request_logger.rs:121-142): formats the
line, then dispatches it through `info!`/`warn!`/`error!` by category. -/
def log_to_console (log : RequestLog) : SinkEvent :=
  let log_message := console_message log
  match log.status_category with
  | StatusCategory.Success => SinkEvent.console LogLevel.info log_message
  | StatusCategory.Redirect => SinkEvent.console LogLevel.info log_message
  | StatusCategory.ClientError => SinkEvent.console LogLevel.warn log_message
  | StatusCategory.ServerError => SinkEvent.console LogLevel.error log_message
  | StatusCategory.Other => SinkEvent.console LogLevel.warn log_message

/-- The file line built by `RequestLogger::log_to_file`
(request_logger.rs:150-162): format string
`"{} [{}] {} {} {} - {} {}ms [{}->{}] {}\n"`. -/
def file_entry (log : RequestLog) : String :=
  toString log.timestamp ++ " [" ++ log.status_category.emoji ++ "] "
    ++ log.method ++ " " ++ log.uri ++ " " ++ log.client_ip ++ " - "
    ++ toString log.status_code ++ " " ++ toString log.response_time_ms
    ++ "ms [" ++ toString log.request_size ++ "->" ++ toString log.response_size
    ++ "] " ++ (log.user_agent.getD "Unknown") ++ "\n"

/-- `RequestLogger::log_to_file` (request_logger.rs:144-167): open in
create+append mode, write the entry, flush; each step propagates its
`std::io::Result` failure with `?`. On success the observable effect is the
appended-and-flushed line at the configured path. -/
def log_to_file (fs : FsOutcome) (config : RequestLoggerConfig)
    (log : RequestLog) : Except FsError (List SinkEvent) :=
  if !fs.open_ok then Except.error FsError.openFailed
  else
    let log_entry := file_entry log
    if !fs.write_ok then Except.error FsError.writeFailed
    else if !fs.flush_ok then Except.error FsError.flushFailed
    else Except.ok [SinkEvent.fileWrite config.log_file_path log_entry]

/-- `RequestLogger::log_request` (request_logger.rs:109-119): console sink
when enabled, then file sink when enabled with any `Err(e)` caught and
reported once through `error!`. Returns the emitted events in order. -/
def log_request (fs : FsOutcome) (config : RequestLoggerConfig)
    (log : RequestLog) : List SinkEvent :=
  (if config.log_to_console then [log_to_console log] else [])
    ++ (if config.log_to_file then
          match log_to_file fs config log with
          | Except.ok evs => evs
          | Except.error e =>
              [SinkEvent.diagError ("Failed to write to log file: " ++ e.msg)]
        else [])

end RequestLogger

/-- The result of one middleware invocation: the value the returned future
resolves to, the record built (if any), and the sink events emitted. -/
structure CallResult (E B : Type) where
  response : Except E (ServiceResponse B)
  record : Option RequestLog
  events : List SinkEvent

namespace RequestLoggerMiddleware

/-- `RequestLoggerMiddleware::call` (request_logger.rs:207-273), with the
downstream service as a function from the request to its `Result`, and the
nondeterministic environment as oracles: `now` (wall-clock seconds at
completion), `elapsed` (elapsed milliseconds) and `fs` (file-sink I/O
outcome). `service.call(req).await?` propagates a downstream error before
any record is built; on success the record is built, classified, dispatched
to the enabled sinks, and the downstream response returned unchanged. -/
def call {E B : Type} (config : RequestLoggerConfig) (fs : FsOutcome)
    (service : ServiceRequest → Except E (ServiceResponse B))
    (now elapsed : Nat) (req : ServiceRequest) : CallResult E B :=
  let client_ip := req.peer_addr.getD "unknown"
  let method := req.method
  let uri := req.uri
  let user_agent := (req.headers.get "user-agent").bind HeaderValue.to_str
  let request_size :=
    (((req.headers.get "content-length").bind HeaderValue.to_str).bind
      parse_usize).getD 0
  match service req with
  | Except.error e =>
      { response := Except.error e, record := none, events := [] }
  | Except.ok res =>
      let status_code := res.status
      let status_category := StatusCategory.from_status_code (status_code : Int)
      let response_size :=
        (((res.headers.get "content-length").bind HeaderValue.to_str).bind
          parse_usize).getD 0
      let log : RequestLog :=
        { timestamp := now
          client_ip := client_ip
          method := method
          uri := uri
          user_agent := user_agent
          status_code := status_code
          response_time_ms := elapsed
          request_size := request_size
          response_size := response_size
          status_category := status_category }
      { response := Except.ok res
        record := some log
        events := RequestLogger.log_request fs config log }

end RequestLoggerMiddleware

/-- Predicate picking out diagnostics events (sink-failure reports). -/
def SinkEvent.isDiagError : SinkEvent → Bool
  | SinkEvent.diagError _ => true
  | _ => false

/-- Predicate picking out file-write events. -/
def SinkEvent.isFileWrite : SinkEvent → Bool
  | SinkEvent.fileWrite _ _ => true
  | _ => false

/-- The console-sink log level as the spec words it: Success and Redirect at
info, ClientError and Other at warning, ServerError at error. Stated from
the spec, for comparison with the source-derived `log_to_console`. -/
def spec_console_level : StatusCategory → LogLevel
  | StatusCategory.Success => LogLevel.info
  | StatusCategory.Redirect => LogLevel.info
  | StatusCategory.ClientError => LogLevel.warn
  | StatusCategory.Other => LogLevel.warn
  | StatusCategory.ServerError => LogLevel.error

/-- The console line as the spec words it:
`<category-emoji> <method> <uri> <client_ip> - <status> <elapsed>ms
[<req_size>-><resp_size>] <user_agent|"Unknown">`. Stated from the spec,
for comparison with the source-derived `console_message`. -/
def spec_console_line (log : RequestLog) : String :=
  log.status_category.emoji ++ " " ++ log.method ++ " " ++ log.uri ++ " "
    ++ log.client_ip ++ " - " ++ toString log.status_code ++ " "
    ++ toString log.response_time_ms ++ "ms [" ++ toString log.request_size
    ++ "->" ++ toString log.response_size ++ "] "
    ++ (log.user_agent.getD "Unknown")

/-- A concrete request used by witnesses: no headers, no peer address. -/
def sampleReq : ServiceRequest :=
  { peer_addr := none, method := "GET", uri := "/", headers := [] }

/-- A concrete response used by witnesses. -/
def sampleRes : ServiceResponse Unit :=
  { status := 204, headers := [], body := () }

/-- A downstream handler that always succeeds with `sampleRes`. -/
def sampleOkService : ServiceRequest → Except Unit (ServiceResponse Unit) :=
  fun _ => Except.ok sampleRes

/-- A file-system oracle on which every I/O step succeeds. -/
def allOkFs : FsOutcome := { open_ok := true, write_ok := true, flush_ok := true }

/-- A file-system oracle on which the file open fails. -/
def openFailFs : FsOutcome := { open_ok := false, write_ok := true, flush_ok := true }

/-- A concrete request whose `user-agent` header is present but does not
decode to a string. -/
def uaInvalidReq : ServiceRequest :=
  { peer_addr := none, method := "GET", uri := "/",
    headers := [("user-agent", HeaderValue.invalid)] }

/-- A concrete record used by witnesses, with no user agent. -/
def sampleLog : RequestLog :=
  { timestamp := 5, client_ip := "unknown", method := "GET", uri := "/",
    user_agent := none, status_code := 204, response_time_ms := 7,
    request_size := 0, response_size := 0,
    status_category := StatusCategory.Success }

/-! ## Theorems -/

/-- C1: for every request and every sink configuration, the result returned
by the middleware is exactly the downstream handler's result — identical
status, headers and body on success, the identical error on failure; the
middleware adds no headers and changes no status, and the sink oracles have
no influence. Logging is a pure side channel (it appears only in `events`). -/
theorem intercept_pass_through {E B : Type} (config : RequestLoggerConfig)
    (fs : FsOutcome) (service : ServiceRequest → Except E (ServiceResponse B))
    (now elapsed : Nat) (req : ServiceRequest) :
    (RequestLoggerMiddleware.call config fs service now elapsed req).response
      = service req := by
  unfold RequestLoggerMiddleware.call
  cases h : service req <;> simp

/-- C2: `from_status_code` is a pure total function on integers — it maps
200–299 to `Success`, 300–399 to `Redirect`, 400–499 to `ClientError`,
500–599 to `ServerError`, and everything else (below 200, above 599,
negative) to `Other`; in particular 204 ↦ Success, 301 ↦ Redirect,
404 ↦ ClientError, 503 ↦ ServerError, 150 ↦ Other, 999 ↦ Other. Totality
and absence of panics hold by construction: the embedding is a total
function defined by exhaustive range tests. -/
theorem classify_total_table :
    (∀ c : Int, 200 ≤ c → c ≤ 299 →
      StatusCategory.from_status_code c = StatusCategory.Success)
  ∧ (∀ c : Int, 300 ≤ c → c ≤ 399 →
      StatusCategory.from_status_code c = StatusCategory.Redirect)
  ∧ (∀ c : Int, 400 ≤ c → c ≤ 499 →
      StatusCategory.from_status_code c = StatusCategory.ClientError)
  ∧ (∀ c : Int, 500 ≤ c → c ≤ 599 →
      StatusCategory.from_status_code c = StatusCategory.ServerError)
  ∧ (∀ c : Int, c < 200 ∨ 599 < c →
      StatusCategory.from_status_code c = StatusCategory.Other)
  ∧ StatusCategory.from_status_code 204 = StatusCategory.Success
  ∧ StatusCategory.from_status_code 301 = StatusCategory.Redirect
  ∧ StatusCategory.from_status_code 404 = StatusCategory.ClientError
  ∧ StatusCategory.from_status_code 503 = StatusCategory.ServerError
  ∧ StatusCategory.from_status_code 150 = StatusCategory.Other
  ∧ StatusCategory.from_status_code 999 = StatusCategory.Other
  ∧ StatusCategory.from_status_code (-7) = StatusCategory.Other := by
  refine ⟨fun c h1 h2 => ?_, fun c h1 h2 => ?_, fun c h1 h2 => ?_,
      fun c h1 h2 => ?_, fun c h1 => ?_, by decide, by decide, by decide,
      by decide, by decide, by decide, by decide⟩ <;>
    (unfold StatusCategory.from_status_code
     split_ifs <;> first | rfl | omega)

/-- Witness for C2: the classifier theorem applied at the concrete code 250. -/
theorem classify_total_table_witness :
    StatusCategory.from_status_code 250 = StatusCategory.Success :=
  classify_total_table.1 250 (by decide) (by decide)

/-- C3: when the downstream handler fails before producing a response, the
middleware builds no record, invokes no sink (no events at all), and the
failure propagates to the caller unmodified. -/
theorem downstream_failure_propagates {E B : Type}
    (config : RequestLoggerConfig) (fs : FsOutcome)
    (service : ServiceRequest → Except E (ServiceResponse B))
    (now elapsed : Nat) (req : ServiceRequest) (e : E)
    (h : service req = Except.error e) :
    RequestLoggerMiddleware.call config fs service now elapsed req =
      { response := Except.error e, record := none, events := [] } := by
  unfold RequestLoggerMiddleware.call
  rw [h]

/-- Witness for C3: a downstream handler that aborts with a unit error on a
concrete request; the middleware output is the propagated error with no
record and no events. -/
theorem downstream_failure_propagates_witness :
    RequestLoggerMiddleware.call (E := Unit) (B := Unit)
      RequestLoggerConfig.default ⟨true, true, true⟩
      (fun _ => Except.error ()) 0 0 ⟨none, "GET", "/", []⟩ =
      { response := Except.error (), record := none, events := [] } :=
  downstream_failure_propagates RequestLoggerConfig.default ⟨true, true, true⟩
    (fun _ => Except.error ()) 0 0 ⟨none, "GET", "/", []⟩ () rfl

/-- The console sink always produces a console event carrying the formatted
message, at some level. -/
theorem log_to_console_is_console (log : RequestLog) :
    ∃ lvl, RequestLogger.log_to_console log
      = SinkEvent.console lvl (RequestLogger.console_message log) := by
  unfold RequestLogger.log_to_console
  cases log.status_category <;> exact ⟨_, rfl⟩

/-- With the file sink enabled and any of its three I/O steps failing,
sink dispatch emits exactly one diagnostics event and no file write. -/
theorem log_request_file_failure (fs : FsOutcome)
    (config : RequestLoggerConfig) (log : RequestLog)
    (hfile : config.log_to_file = true)
    (hfail : (fs.open_ok && fs.write_ok && fs.flush_ok) = false) :
    ((RequestLogger.log_request fs config log).filter
        SinkEvent.isDiagError).length = 1
    ∧ ((RequestLogger.log_request fs config log).filter
        SinkEvent.isFileWrite).length = 0 := by
  obtain ⟨o, w, fl⟩ := fs
  obtain ⟨lvl, hcon⟩ := log_to_console_is_console log
  unfold RequestLogger.log_request
  rw [hfile, hcon]
  cases hc : config.log_to_console <;> cases o <;> cases w <;> cases fl <;>
    simp_all [RequestLogger.log_to_file, SinkEvent.isDiagError,
      SinkEvent.isFileWrite, List.filter]

/-- C4: when the downstream handler has produced a response and the file
sink is enabled, any file-sink failure (open, write or flush) is caught:
the returned response is still the downstream response unchanged, the
failure is reported exactly once to the diagnostics channel, and no file
write happens (no retry, no escalation). -/
theorem sink_failure_contained {E B : Type} (config : RequestLoggerConfig)
    (fs : FsOutcome) (service : ServiceRequest → Except E (ServiceResponse B))
    (now elapsed : Nat) (req : ServiceRequest) (res : ServiceResponse B)
    (hok : service req = Except.ok res)
    (hfile : config.log_to_file = true)
    (hfail : (fs.open_ok && fs.write_ok && fs.flush_ok) = false) :
    (RequestLoggerMiddleware.call config fs service now elapsed req).response
        = Except.ok res
    ∧ ((RequestLoggerMiddleware.call config fs service now elapsed
          req).events.filter SinkEvent.isDiagError).length = 1
    ∧ ((RequestLoggerMiddleware.call config fs service now elapsed
          req).events.filter SinkEvent.isFileWrite).length = 0 := by
  refine ⟨?_, ?_, ?_⟩
  · simp [RequestLoggerMiddleware.call, hok]
  · simp only [RequestLoggerMiddleware.call, hok]
    exact (log_request_file_failure fs config _ hfile hfail).1
  · simp only [RequestLoggerMiddleware.call, hok]
    exact (log_request_file_failure fs config _ hfile hfail).2

/-- Witness for C4: a concrete request through a succeeding handler with the
file sink enabled and a failing file open. -/
theorem sink_failure_contained_witness :
    (RequestLoggerMiddleware.call (E := Unit) (B := Unit)
        ⟨true, true, "requests.log"⟩ openFailFs sampleOkService 5 7
        sampleReq).response = Except.ok sampleRes
    ∧ ((RequestLoggerMiddleware.call (E := Unit) (B := Unit)
        ⟨true, true, "requests.log"⟩ openFailFs sampleOkService 5 7
        sampleReq).events.filter SinkEvent.isDiagError).length = 1
    ∧ ((RequestLoggerMiddleware.call (E := Unit) (B := Unit)
        ⟨true, true, "requests.log"⟩ openFailFs sampleOkService 5 7
        sampleReq).events.filter SinkEvent.isFileWrite).length = 0 :=
  sink_failure_contained ⟨true, true, "requests.log"⟩ openFailFs
    sampleOkService 5 7 sampleReq sampleRes rfl rfl rfl

/-- C6: `from_env` is a pure total function (it never fails and, on the
embedding, has no side effects); each field equals the parsed environment
input when present and parsable, and otherwise falls back silently to its
default — `log_to_console = true`, `log_to_file = false`,
`log_file_path = "requests.log"`. -/
theorem from_env_resolution (env : EnvMap) :
    ((env "LOG_REQUESTS_CONSOLE" = none →
        (RequestLoggerConfig.from_env env).log_to_console = true)
      ∧ (∀ s, env "LOG_REQUESTS_CONSOLE" = some s → parse_bool s = none →
        (RequestLoggerConfig.from_env env).log_to_console = true)
      ∧ (∀ s b, env "LOG_REQUESTS_CONSOLE" = some s → parse_bool s = some b →
        (RequestLoggerConfig.from_env env).log_to_console = b))
    ∧ ((env "LOG_REQUESTS_FILE" = none →
        (RequestLoggerConfig.from_env env).log_to_file = false)
      ∧ (∀ s, env "LOG_REQUESTS_FILE" = some s → parse_bool s = none →
        (RequestLoggerConfig.from_env env).log_to_file = false)
      ∧ (∀ s b, env "LOG_REQUESTS_FILE" = some s → parse_bool s = some b →
        (RequestLoggerConfig.from_env env).log_to_file = b))
    ∧ ((env "LOG_REQUESTS_FILE_PATH" = none →
        (RequestLoggerConfig.from_env env).log_file_path = "requests.log")
      ∧ (∀ s, env "LOG_REQUESTS_FILE_PATH" = some s →
        (RequestLoggerConfig.from_env env).log_file_path = s)) := by
  refine ⟨⟨?_, ?_, ?_⟩, ⟨?_, ?_, ?_⟩, ⟨?_, ?_⟩⟩ <;>
    (intros
     simp_all [RequestLoggerConfig.from_env, parse_bool])

/-- Witness for C6: an empty environment yields every default. -/
theorem from_env_resolution_witness :
    (RequestLoggerConfig.from_env (fun _ => none)).log_to_console = true
    ∧ (RequestLoggerConfig.from_env (fun _ => none)).log_to_file = false
    ∧ (RequestLoggerConfig.from_env (fun _ => none)).log_file_path
        = "requests.log" :=
  ⟨(from_env_resolution (fun _ => none)).1.1 rfl,
   (from_env_resolution (fun _ => none)).2.1.1 rfl,
   (from_env_resolution (fun _ => none)).2.2.1 rfl⟩

/-- C7: observation errors are substituted with their documented defaults
and never surfaced: whenever the downstream handler produced a response, a
record is built, and a missing/undecodable/unparsable `content-length` on
the request or the response yields a size of 0, an unresolvable peer
address yields `client_ip = "unknown"`, and a missing-or-undecodable
`user-agent` yields an absent `user_agent`. -/
theorem observation_errors_defaulted {E B : Type}
    (config : RequestLoggerConfig) (fs : FsOutcome)
    (service : ServiceRequest → Except E (ServiceResponse B))
    (now elapsed : Nat) (req : ServiceRequest) (res : ServiceResponse B)
    (hok : service req = Except.ok res) :
    ∃ log, (RequestLoggerMiddleware.call config fs service now elapsed
          req).record = some log
      ∧ (((req.headers.get "content-length").bind HeaderValue.to_str).bind
            parse_usize = none → log.request_size = 0)
      ∧ (((res.headers.get "content-length").bind HeaderValue.to_str).bind
            parse_usize = none → log.response_size = 0)
      ∧ (req.peer_addr = none → log.client_ip = "unknown")
      ∧ ((req.headers.get "user-agent").bind HeaderValue.to_str = none →
            log.user_agent = none) := by
  simp only [RequestLoggerMiddleware.call, hok]
  refine ⟨_, rfl, ?_, ?_, ?_, ?_⟩ <;> (intro h; simp [h])

/-- Witness for C7: a concrete request with no headers and no peer address
through a succeeding handler whose response has no headers; all defaults
appear in the record. -/
theorem observation_errors_defaulted_witness :
    ∃ log, (RequestLoggerMiddleware.call (E := Unit) (B := Unit)
          RequestLoggerConfig.default allOkFs sampleOkService 5 7
          sampleReq).record = some log
      ∧ log.request_size = 0 ∧ log.response_size = 0
      ∧ log.client_ip = "unknown" ∧ log.user_agent = none := by
  obtain ⟨log, h1, h2, h3, h4, h5⟩ := observation_errors_defaulted
    RequestLoggerConfig.default allOkFs sampleOkService 5 7 sampleReq
    sampleRes rfl
  exact ⟨log, h1, h2 rfl, h3 rfl, h4 rfl, h5 rfl⟩

/-- The formatted console message of a record with an absent user agent
ends in `"Unknown"`. -/
theorem console_message_unknown (log : RequestLog)
    (h : log.user_agent = none) :
    ∃ p, RequestLogger.console_message log = p ++ "Unknown" := by
  refine ⟨log.status_category.emoji ++ " " ++ log.method ++ " " ++ log.uri
    ++ " " ++ log.client_ip ++ " - " ++ toString log.status_code ++ " "
    ++ toString log.response_time_ms ++ "ms [" ++ toString log.request_size
    ++ "->" ++ toString log.response_size ++ "] ", ?_⟩
  unfold RequestLogger.console_message
  rw [h]
  rfl

/-- A record with an absent user agent is rendered by the console sink as a
line ending in `"Unknown"`. -/
theorem log_to_console_unknown (log : RequestLog)
    (h : log.user_agent = none) :
    ∃ lvl p, RequestLogger.log_to_console log
      = SinkEvent.console lvl (p ++ "Unknown") := by
  obtain ⟨lvl, hcon⟩ := log_to_console_is_console log
  obtain ⟨p, hp⟩ := console_message_unknown log h
  exact ⟨lvl, p, by rw [hcon, hp]⟩

/-- C8: the console sink emits exactly one console event whose message is
the line `<category-emoji> <method> <uri> <client_ip> - <status>
<elapsed>ms [<req_size>-><resp_size>] <user_agent|"Unknown">` (with
`"Unknown"` standing in when `user_agent` is absent), at the spec's level
for the record's category: Success/Redirect at info, ClientError/Other at
warning, ServerError at error. -/
theorem console_sink_spec (log : RequestLog) :
    RequestLogger.log_to_console log
      = SinkEvent.console (spec_console_level log.status_category)
          (spec_console_line log)
    ∧ (log.user_agent = none →
        ∃ p, spec_console_line log = p ++ "Unknown") := by
  constructor
  · cases h : log.status_category <;>
      simp [RequestLogger.log_to_console, RequestLogger.console_message,
        spec_console_level, spec_console_line, h]
  · intro h
    obtain ⟨p, hp⟩ := console_message_unknown log h
    exact ⟨p, hp⟩

/-- Witness for C8: the console sink applied to a concrete 204 record with
no user agent; the theorem's absent-user-agent clause is discharged there. -/
theorem console_sink_spec_witness :
    RequestLogger.log_to_console sampleLog
      = SinkEvent.console (spec_console_level sampleLog.status_category)
          (spec_console_line sampleLog)
    ∧ ∃ p, spec_console_line sampleLog = p ++ "Unknown" :=
  ⟨(console_sink_spec sampleLog).1, (console_sink_spec sampleLog).2 rfl⟩

/-- C9: in every record the middleware builds, `status_category` is the
classifier's image of `status_code`. (The record is a value of an immutable
structure, never modified after construction.) -/
theorem record_classifier_invariant {E B : Type}
    (config : RequestLoggerConfig) (fs : FsOutcome)
    (service : ServiceRequest → Except E (ServiceResponse B))
    (now elapsed : Nat) (req : ServiceRequest) (log : RequestLog)
    (h : (RequestLoggerMiddleware.call config fs service now elapsed
        req).record = some log) :
    log.status_category
      = StatusCategory.from_status_code (log.status_code : Int) := by
  cases hs : service req with
  | error e =>
      rw [RequestLoggerMiddleware.call] at h
      rw [hs] at h
      simp at h
  | ok res =>
      rw [RequestLoggerMiddleware.call] at h
      rw [hs] at h
      rw [Option.some.injEq] at h
      subst h
      rfl

/-- Witness for C9: a concrete call through a succeeding 204 handler; the
built record's category is the classifier's image of 204. -/
theorem record_classifier_invariant_witness :
    sampleLog.status_category
      = StatusCategory.from_status_code ((204 : Nat) : Int) :=
  record_classifier_invariant (E := Unit) (B := Unit)
    RequestLoggerConfig.default allOkFs sampleOkService 5 7 sampleReq
    sampleLog (by decide)

/-- C10: a present-but-undecodable `user-agent` header yields a record with
an absent `user_agent`, exactly as if the header were missing, and the
console-formatted line for that record ends in `"Unknown"`. -/
theorem undecodable_user_agent_absent {E B : Type}
    (config : RequestLoggerConfig) (fs : FsOutcome)
    (service : ServiceRequest → Except E (ServiceResponse B))
    (now elapsed : Nat) (req : ServiceRequest) (res : ServiceResponse B)
    (hok : service req = Except.ok res)
    (hua : req.headers.get "user-agent" = some HeaderValue.invalid) :
    ∃ log, (RequestLoggerMiddleware.call config fs service now elapsed
          req).record = some log
      ∧ log.user_agent = none
      ∧ ∃ lvl p, RequestLogger.log_to_console log
          = SinkEvent.console lvl (p ++ "Unknown") := by
  have hnone : (req.headers.get "user-agent").bind HeaderValue.to_str
      = none := by rw [hua]; rfl
  simp only [RequestLoggerMiddleware.call, hok]
  exact ⟨_, rfl, hnone, log_to_console_unknown _ hnone⟩

/-- Witness for C10: a concrete request carrying an undecodable
`user-agent` header value through a succeeding handler. -/
theorem undecodable_user_agent_absent_witness :
    ∃ log, (RequestLoggerMiddleware.call (E := Unit) (B := Unit)
          RequestLoggerConfig.default allOkFs sampleOkService 5 7
          uaInvalidReq).record = some log
      ∧ log.user_agent = none
      ∧ ∃ lvl p, RequestLogger.log_to_console log
          = SinkEvent.console lvl (p ++ "Unknown") :=
  undecodable_user_agent_absent RequestLoggerConfig.default allOkFs
    sampleOkService 5 7 uaInvalidReq sampleRes rfl (by decide)

end Libretune
